import Mathlib

/-!
Verification development for the claude-governance policy compiler
(repository Lopie-Dev/claude-governance).

The repository compiles one declarative governance document
(governance.yaml) into: a local enforcement descriptor
(.claude/settings.json), executable hook scripts, a CI workflow
definition, and a GOVERNANCE.md summary.

This file is a shallow embedding of the validator
(src/parser.ts # GovernanceParser), the settings projector
(src/generators/settings.ts # SettingsGenerator), the workflow
projector (src/generators/workflow.ts # WorkflowGenerator), the
compiler orchestration (src/compiler.ts # GovernanceCompiler), and a
spec-modelled hook projector (src/generators/hooks.ts is not in the
sources available under src/).

Conventions of the embedding:
- TypeScript optional fields become Option types.
- JavaScript truthiness tests on optional strings and numbers are made
  explicit through jsTruthyStr / jsTruthyNum: the empty string and the
  number 0 are falsy, exactly as in the source.
- Thrown exceptions become Except String results.
- JavaScript objects used as string-keyed maps become ordered
  association lists, preserving key insertion order.
-/

/-! ## JavaScript semantics helpers -/

/-- Truthiness of an optional string: undefined and the empty string are
falsy, every other string is truthy (JS semantics of `if (x)` on an
optional string field). -/
def jsTruthyStr : Option String → Bool
  | some s => !(s == "")
  | none => false

/-- Truthiness of an optional number: undefined and 0 are falsy
(JS semantics of `if (x)` on an optional numeric field). -/
def jsTruthyNum : Option Int → Bool
  | some n => !(n == 0)
  | none => false

/-- JavaScript String.prototype.includes: substring test. -/
def jsIncludes (s sub : String) : Bool :=
  decide (sub.data <:+: s.data)

/-- JavaScript template-literal rendering of a possibly-undefined
string: an undefined value prints as the text undefined. -/
def jsOptStr : Option String → String
  | some s => s
  | none => "undefined"

/-! ## Data model (src/schema/governance.ts)

The canonical model produced by the zod schema GovernanceSchema.
Optional zod fields become Option fields.  Sections that no projector
in this development touches (data_classification, audit, testing,
deployment, git, cost_controls) are carried opaquely by the real tool
and are omitted from the record; no claim below depends on them. -/

structure PermissionRule where
  path : Option String := none
  pattern : Option String := none
  reason : Option String := none
deriving Repr, DecidableEq

/-- A deny/ask/allow triple of rule lists; used for both the
filesystem and the commands scope. -/
structure ScopedPermissions where
  deny : Option (List PermissionRule) := none
  ask : Option (List PermissionRule) := none
  allow : Option (List PermissionRule) := none
deriving Repr, DecidableEq

structure NetworkPermissions where
  allowed_domains : Option (List String) := none
  blocked_domains : Option (List String) := none
deriving Repr, DecidableEq

structure Permissions where
  filesystem : Option ScopedPermissions := none
  commands : Option ScopedPermissions := none
  network : Option NetworkPermissions := none
deriving Repr, DecidableEq

structure SecretPattern where
  pattern : String
  name : Option String := none
deriving Repr, DecidableEq

structure SecretsDetection where
  patterns : Option (List SecretPattern) := none
deriving Repr, DecidableEq

structure SecretsEnforcement where
  hook : Option String := none
  action : Option String := none
  message : Option String := none
deriving Repr, DecidableEq

structure Secrets where
  policy : Option String := none
  allowed_sources : Option (List String) := none
  detection : Option SecretsDetection := none
  enforcement : Option SecretsEnforcement := none
deriving Repr, DecidableEq

/-- The closed set of approval-gate action types
(z.enum of command, prompt, agent). -/
inductive ActionType where
  | command
  | prompt
  | agent
deriving Repr, DecidableEq

def actionTypeStr : ActionType → String
  | .command => "command"
  | .prompt => "prompt"
  | .agent => "agent"

structure ApprovalGateAction where
  type : ActionType
  command : Option String := none
  prompt : Option String := none
  timeout : Option Int := none
deriving Repr, DecidableEq

structure ApprovalGateTrigger where
  tool : Option String := none
  path_pattern : Option String := none
  command_pattern : Option String := none
deriving Repr, DecidableEq

structure ApprovalGate where
  name : String
  trigger : ApprovalGateTrigger
  action : ApprovalGateAction
deriving Repr, DecidableEq

/-- A protected branch: a name plus an opaque ordered key-value bag of
requirements (z.record of z.any, modelled as scalar pairs). -/
structure ProtectedBranch where
  name : String
  requires : List (String × String) := []
deriving Repr, DecidableEq

structure OperationalBranches where
  «protected» : Option (List ProtectedBranch) := none
deriving Repr, DecidableEq

structure OperationalDynamodb where
  billing_mode : String
  enforcement : String
  reason : Option String := none
deriving Repr, DecidableEq

structure Operational where
  branches : Option OperationalBranches := none
  dynamodb : Option OperationalDynamodb := none
deriving Repr, DecidableEq

structure Role where
  members : Option (List String) := none
  restrictions : Option (List String) := none
  behavior : Option (List String) := none
deriving Repr, DecidableEq

structure ComplianceControl where
  id : String
  description : String
  satisfied_by : List String
deriving Repr, DecidableEq

structure ComplianceFramework where
  name : String
  controls : List ComplianceControl
deriving Repr, DecidableEq

structure Compliance where
  frameworks : Option (List ComplianceFramework) := none
deriving Repr, DecidableEq

structure SandboxFilesystem where
  allowed_paths : Option (List String) := none
  blocked_paths : Option (List String) := none
deriving Repr, DecidableEq

structure SandboxConfig where
  enabled : Option Bool := none
  mode : Option String := none
  filesystem : Option SandboxFilesystem := none
  excluded_commands : Option (List String) := none
deriving Repr, DecidableEq

/-- The canonical model of one governance document.  roles is a
z.record, i.e. an ordered string-keyed map. -/
structure GovernanceConfig where
  version : String
  project : String
  description : Option String := none
  permissions : Option Permissions := none
  secrets : Option Secrets := none
  approval_gates : Option (List ApprovalGate) := none
  operational : Option Operational := none
  roles : Option (List (String × Role)) := none
  sandbox : Option SandboxConfig := none
  compliance : Option Compliance := none
deriving Repr, DecidableEq

/-! ## Local enforcement descriptor (src/generators/settings.ts,
interface ClaudeSettings)

The defaultMode field of the TS interface is never assigned by the
generator and is omitted. -/

structure SettingsPermissions where
  allow : Option (List String) := none
  deny : Option (List String) := none
  ask : Option (List String) := none
deriving Repr, DecidableEq

structure SettingsSandbox where
  enabled : Option Bool := none
  mode : Option String := none
  allowedDomains : Option (List String) := none
  blockedDomains : Option (List String) := none
  allowedPaths : Option (List String) := none
  blockedPaths : Option (List String) := none
  excludedCommands : Option (List String) := none
deriving Repr, DecidableEq

/-- One hook entry: the object with keys type, command, prompt,
timeout built per approval gate (settings.ts lines 200-214). -/
structure HookConfig where
  type : String
  command : Option String := none
  prompt : Option String := none
  timeout : Option Int := none
deriving Repr, DecidableEq

/-- One element of the list under a hook-event key:
matcher plus a singleton hooks list. -/
structure HookMatcherEntry where
  matcher : String
  hooks : List HookConfig
deriving Repr, DecidableEq

structure ClaudeSettings where
  permissions : Option SettingsPermissions := none
  sandbox : Option SettingsSandbox := none
  hooks : Option (List (String × List HookMatcherEntry)) := none
deriving Repr, DecidableEq

namespace SettingsGenerator

/-- settings.ts # formatFilePermission: throws when rule.path is falsy
(undefined or the empty string); otherwise returns tools(path).  The
source distinguishes a glob branch from a plain branch, both returning
the same text; the branch is kept for fidelity. -/
def formatFilePermission (rule : PermissionRule) (tools : String) : Except String String :=
  if !jsTruthyStr rule.path then
    .error "Filesystem permission rule must have a path"
  else
    let path := rule.path.getD ""
    if jsIncludes path "*" then
      .ok (tools ++ "(" ++ path ++ ")")
    else
      .ok (tools ++ "(" ++ path ++ ")")

/-- settings.ts # formatBashPermission: throws when rule.pattern is
falsy; otherwise returns Bash(pattern) with the glob verbatim. -/
def formatBashPermission (rule : PermissionRule) : Except String String :=
  if !jsTruthyStr rule.pattern then
    .error "Command permission rule must have a pattern"
  else
    .ok ("Bash(" ++ rule.pattern.getD "" ++ ")")

/-- Exception-propagating map, as JS Array.prototype.map over a
formatter that can throw. -/
def mapExcept (f : α → Except ε β) : List α → Except ε (List β)
  | [] => .ok []
  | x :: xs => do
    let y ← f x
    let ys ← mapExcept f xs
    .ok (y :: ys)

/-- The repeated pattern of generatePermissions:
if (rules && rules.length > 0) target = (target || []).concat(rules.map(fmt)).
An absent or empty rule list leaves the target list untouched. -/
def pushRules (cur : Option (List String)) (rules : Option (List PermissionRule))
    (fmt : PermissionRule → Except String String) : Except String (Option (List String)) :=
  match rules with
  | none => .ok cur
  | some rs =>
    if rs.length > 0 then do
      let formatted ← mapExcept fmt rs
      .ok (some (cur.getD [] ++ formatted))
    else
      .ok cur

/-- settings.ts # generatePermissions: filesystem deny/ask/allow are
pushed first (formatted with the fixed Read|Write|Edit capability
label), then commands deny/ask/allow are appended to the same three
lists (formatted as Bash rules). -/
def generatePermissions (config : GovernanceConfig) : Except String SettingsPermissions := do
  let fs := config.permissions.bind Permissions.filesystem
  let cmds := config.permissions.bind Permissions.commands
  let deny1 ← pushRules none (fs.bind ScopedPermissions.deny)
      (fun r => formatFilePermission r "Read|Write|Edit")
  let ask1 ← pushRules none (fs.bind ScopedPermissions.ask)
      (fun r => formatFilePermission r "Read|Write|Edit")
  let allow1 ← pushRules none (fs.bind ScopedPermissions.allow)
      (fun r => formatFilePermission r "Read|Write|Edit")
  let deny2 ← pushRules deny1 (cmds.bind ScopedPermissions.deny) formatBashPermission
  let ask2 ← pushRules ask1 (cmds.bind ScopedPermissions.ask) formatBashPermission
  let allow2 ← pushRules allow1 (cmds.bind ScopedPermissions.allow) formatBashPermission
  return { allow := allow2, deny := deny2, ask := ask2 }

/-- settings.ts # generateSandbox: enabled is always set to true; mode
only when truthy; domain lists come from permissions.network and path
lists from sandbox.filesystem, each key set exactly when the source
field is present (a present empty array is truthy in JS). -/
def generateSandbox (config : GovernanceConfig) : SettingsSandbox :=
  match config.sandbox with
  | none => { enabled := some true }
  | some sb =>
    { enabled := some true
      mode := if jsTruthyStr sb.mode then sb.mode else none
      allowedDomains := (config.permissions.bind Permissions.network).bind
        NetworkPermissions.allowed_domains
      blockedDomains := (config.permissions.bind Permissions.network).bind
        NetworkPermissions.blocked_domains
      allowedPaths := (sb.filesystem).bind SandboxFilesystem.allowed_paths
      blockedPaths := (sb.filesystem).bind SandboxFilesystem.blocked_paths
      excludedCommands := sb.excluded_commands }

/-- settings.ts lines 180-187: the hook event of a gate.  Every branch
of the source assigns PreToolUse (command-pattern and path-pattern
gates are commented as Bash commands resp. file operations, and the
default is also PreToolUse). -/
def hookEventOf (gate : ApprovalGate) : String :=
  if jsTruthyStr gate.trigger.command_pattern then "PreToolUse"
  else if jsTruthyStr gate.trigger.path_pattern then "PreToolUse"
  else "PreToolUse"

/-- settings.ts lines 189-197: the matcher string, starting from the
empty string: a truthy tool name wins, else a truthy command pattern
gives Bash, else a truthy path pattern gives Edit|Write. -/
def matcherOf (t : ApprovalGateTrigger) : String :=
  if jsTruthyStr t.tool then t.tool.getD ""
  else if jsTruthyStr t.command_pattern then "Bash"
  else if jsTruthyStr t.path_pattern then "Edit|Write"
  else ""

/-- settings.ts lines 200-214: the hook configuration object; type is
always set, command/prompt/timeout only when the action value is
truthy. -/
def mkHookConfig (a : ApprovalGateAction) : HookConfig :=
  { type := actionTypeStr a.type
    command := if jsTruthyStr a.command then a.command else none
    prompt := if jsTruthyStr a.prompt then a.prompt else none
    timeout := if jsTruthyNum a.timeout then a.timeout else none }

/-- Appending to a JS object of arrays: if the key exists its array is
extended, else the key is inserted at the end (object insertion
order). -/
def pushAssoc (hooks : List (String × List HookMatcherEntry)) (ev : String)
    (e : HookMatcherEntry) : List (String × List HookMatcherEntry) :=
  match hooks with
  | [] => [(ev, [e])]
  | (k, es) :: rest =>
    if k == ev then (k, es ++ [e]) :: rest
    else (k, es) :: pushAssoc rest ev e

/-- settings.ts # generateHooksConfig: empty when approval_gates is
absent or empty; otherwise one matcher entry per gate, pushed under
its hook event in declaration order. -/
def generateHooksConfig (config : GovernanceConfig) :
    List (String × List HookMatcherEntry) :=
  match config.approval_gates with
  | none => []
  | some gates =>
    if gates.length == 0 then []
    else
      gates.foldl (fun hooks gate =>
        pushAssoc hooks (hookEventOf gate)
          { matcher := matcherOf gate.trigger, hooks := [mkHookConfig gate.action] }) []

/-- settings.ts # generate: permissions key exactly when the
permissions section is present, sandbox key exactly when
sandbox.enabled is truthy, hooks key exactly when the hooks object is
non-empty. -/
def generate (config : GovernanceConfig) : Except String ClaudeSettings := do
  let permissions ← match config.permissions with
    | some _ => do
        let p ← generatePermissions config
        pure (some p)
    | none => pure none
  let sandbox :=
    if (config.sandbox.bind SandboxConfig.enabled).getD false then
      some (generateSandbox config)
    else none
  let hooks := generateHooksConfig config
  let hooksOpt := if hooks.length > 0 then some hooks else none
  return { permissions := permissions, sandbox := sandbox, hooks := hooksOpt }

end SettingsGenerator

/-! ## Workflow projector (src/generators/workflow.ts) -/

/-- One flattened compliance-control row passed to the workflow
template (workflow.ts # getComplianceControls). -/
structure ControlReport where
  id : String
  framework : String
  description : String
  evidence : List String
deriving Repr, DecidableEq

/-- The data bag handed to the Handlebars template
(workflow.ts # generate, lines 27-35). -/
structure WorkflowData where
  projectName : String
  protectedBranches : List String
  secretPatterns : List SecretPattern
  hasTerraform : Bool
  dynamodbBillingMode : Option String
  contractorMembers : List String
  complianceControls : List ControlReport
deriving Repr, DecidableEq

structure GeneratedWorkflow where
  filename : String
  content : String
deriving Repr, DecidableEq

namespace WorkflowGenerator

/-- workflow.ts # getProtectedBranches:
(config.operational?.branches?.protected || []).map(b => b.name). -/
def getProtectedBranches (config : GovernanceConfig) : List String :=
  (((config.operational.bind Operational.branches).bind
      OperationalBranches.«protected»).getD []).map ProtectedBranch.name

/-- workflow.ts # checkTerraformUsage: false without approval gates;
otherwise true exactly when some gate has a path pattern containing
.tf or infrastructure/ (optional chaining makes an absent pattern
falsy). -/
def checkTerraformUsage (config : GovernanceConfig) : Bool :=
  match config.approval_gates with
  | none => false
  | some gates =>
    gates.any fun gate =>
      match gate.trigger.path_pattern with
      | none => false
      | some pp => jsIncludes pp ".tf" || jsIncludes pp "infrastructure/"

/-- workflow.ts # getContractorMembers: the members of the role
literally named contractor, or []. -/
def getContractorMembers (config : GovernanceConfig) : List String :=
  match config.roles.bind (fun rs => List.lookup "contractor" rs) with
  | none => []
  | some role => role.members.getD []

/-- workflow.ts # getComplianceControls: flatten every framework into
rows carrying the owning framework name. -/
def getComplianceControls (config : GovernanceConfig) : List ControlReport :=
  match config.compliance.bind Compliance.frameworks with
  | none => []
  | some fws =>
    fws.flatMap fun fw =>
      fw.controls.map fun c =>
        { id := c.id, framework := fw.name
          description := c.description, evidence := c.satisfied_by }

/-- workflow.ts # generate, lines 27-35: the extracted template data. -/
def workflowData (config : GovernanceConfig) : WorkflowData :=
  { projectName := config.project
    protectedBranches := getProtectedBranches config
    secretPatterns := ((config.secrets.bind Secrets.detection).bind
      SecretsDetection.patterns).getD []
    hasTerraform := checkTerraformUsage config
    dynamodbBillingMode := (config.operational.bind Operational.dynamodb).map
      OperationalDynamodb.billing_mode
    contractorMembers := getContractorMembers config
    complianceControls := getComplianceControls config }

/-- workflow.ts # generate.  The Handlebars template is an external
text-substitution capability (spec section 9); it is passed in as a
function from the data bag to text.  The filename is fixed. -/
def generate (tmpl : WorkflowData → String) (config : GovernanceConfig) :
    GeneratedWorkflow :=
  { filename := "governance.yml", content := tmpl (workflowData config) }

end WorkflowGenerator

/-! ## Hook projector -/

structure GeneratedHook where
  filename : String
  content : String
  executable : Bool
deriving Repr, DecidableEq

namespace HooksGenerator

/-- Deterministic rendering of the secret-scan script body from the
pattern list. -/
def secretScanScript (ps : List SecretPattern) : String :=
  "#!/bin/bash\n# Secret pattern scan\n"
    ++ String.intercalate "\n" (ps.map fun p =>
        "check_pattern " ++ p.pattern ++ " " ++ jsOptStr p.name)
    ++ "\nexit 0\n"

/-- Deterministic rendering of the permission re-validation script. -/
def permissionCheckScript (_config : GovernanceConfig) : String :=
  "#!/bin/bash\n# Permission re-validation\nexit 0\n"

/-- Deterministic rendering of one approval script per action-type
family. -/
def approvalScript (t : ActionType) : String :=
  "#!/bin/bash\n# Approval gate runner for " ++ actionTypeStr t ++ " actions\nexit 0\n"

/-- Modelled from the spec: the Hook Projector source
(src/generators/hooks.ts) is not among the files under src; only its
callers and exports are.  Spec section 4.3 specifies one standalone
executable script per enforcement concern detected in the model:
a secret-pattern scan when patterns exist, a permission
re-validation script, and one script per distinct action-type family
needed by approval gates; every generated script is marked
executable.  Script bodies are deterministic renderings of the
relevant model data. -/
def generate (config : GovernanceConfig) : List GeneratedHook :=
  let patterns := ((config.secrets.bind Secrets.detection).bind
    SecretsDetection.patterns).getD []
  let secretHooks :=
    if patterns.length > 0 then
      [{ filename := "secret-scan.sh", content := secretScanScript patterns
         executable := true }]
    else []
  let permHooks :=
    match config.permissions with
    | some _ =>
      [{ filename := "permission-check.sh"
         content := permissionCheckScript config, executable := true }]
    | none => []
  let gateTypes :=
    ((config.approval_gates.getD []).map (fun g => g.action.type)).eraseDups
  let gateHooks := gateTypes.map fun t =>
    { filename := "approval-" ++ actionTypeStr t ++ ".sh"
      content := approvalScript t, executable := true }
  secretHooks ++ permHooks ++ gateHooks

end HooksGenerator

/-! ## JSON rendering of the descriptor (SettingsGenerator.toJSON)

JSON.stringify(settings, null, 2), specialized to the ClaudeSettings
shape the generator produces.  Caveat kept deliberately small: the
source emits object keys in runtime insertion order; this printer uses
the key order of a descriptor in which every key was assigned (the
order is deterministic either way, and no claim depends on intra-object
key order).  Control characters other than newline, tab and carriage
return are not escaped here; no generated content contains them. -/

def jsonEscapeChar (c : Char) : String :=
  if c = '"' then "\\\""
  else if c = '\\' then "\\\\"
  else if c = '\n' then "\\n"
  else if c = '\t' then "\\t"
  else if c = '\r' then "\\r"
  else String.singleton c

def jsonEscape (s : String) : String :=
  String.join (s.data.map jsonEscapeChar)

def jsonStr (s : String) : String :=
  "\"" ++ jsonEscape s ++ "\""

/-- An object whose member values are already rendered; ind is the
indentation of the braces. -/
def jsonObj (ind : String) (fields : List (String × String)) : String :=
  if fields.isEmpty then "\x7b\x7d"
  else
    "\x7b\n"
      ++ String.intercalate ",\n"
          (fields.map fun kv => ind ++ "  " ++ jsonStr kv.1 ++ ": " ++ kv.2)
      ++ "\n" ++ ind ++ "\x7d"

/-- An array whose items are already rendered. -/
def jsonArr (ind : String) (items : List String) : String :=
  if items.isEmpty then "[]"
  else
    "[\n"
      ++ String.intercalate ",\n" (items.map fun it => ind ++ "  " ++ it)
      ++ "\n" ++ ind ++ "]"

def jsonStrList (ind : String) (xs : List String) : String :=
  jsonArr ind (xs.map jsonStr)

/-- A present optional field contributes one member, an absent one
contributes nothing (JSON.stringify drops undefined members). -/
def optField (key : String) (o : Option α) (render : α → String) :
    List (String × String) :=
  match o with
  | none => []
  | some v => [(key, render v)]

namespace SettingsGenerator

def renderPermissions (ind : String) (p : SettingsPermissions) : String :=
  jsonObj ind
    (optField "deny" p.deny (jsonStrList (ind ++ "  "))
      ++ optField "ask" p.ask (jsonStrList (ind ++ "  "))
      ++ optField "allow" p.allow (jsonStrList (ind ++ "  ")))

def renderSandbox (ind : String) (sb : SettingsSandbox) : String :=
  jsonObj ind
    (optField "enabled" sb.enabled (fun b => if b then "true" else "false")
      ++ optField "mode" sb.mode jsonStr
      ++ optField "allowedDomains" sb.allowedDomains (jsonStrList (ind ++ "  "))
      ++ optField "blockedDomains" sb.blockedDomains (jsonStrList (ind ++ "  "))
      ++ optField "allowedPaths" sb.allowedPaths (jsonStrList (ind ++ "  "))
      ++ optField "blockedPaths" sb.blockedPaths (jsonStrList (ind ++ "  "))
      ++ optField "excludedCommands" sb.excludedCommands (jsonStrList (ind ++ "  ")))

def renderHookConfig (ind : String) (hc : HookConfig) : String :=
  jsonObj ind
    ([("type", jsonStr hc.type)]
      ++ optField "command" hc.command jsonStr
      ++ optField "prompt" hc.prompt jsonStr
      ++ optField "timeout" hc.timeout (fun n => toString n))

def renderHookEntry (ind : String) (e : HookMatcherEntry) : String :=
  jsonObj ind
    [("matcher", jsonStr e.matcher),
     ("hooks", jsonArr (ind ++ "  ")
        (e.hooks.map (renderHookConfig (ind ++ "    "))))]

def renderHooks (ind : String) (hooks : List (String × List HookMatcherEntry)) :
    String :=
  jsonObj ind
    (hooks.map fun kv =>
      (kv.1, jsonArr (ind ++ "  ") (kv.2.map (renderHookEntry (ind ++ "    ")))))

/-- settings.ts # toJSON: JSON.stringify(settings, null, 2). -/
def toJSON (settings : ClaudeSettings) : String :=
  jsonObj ""
    (optField "permissions" settings.permissions (renderPermissions "  ")
      ++ optField "sandbox" settings.sandbox (renderSandbox "  ")
      ++ optField "hooks" settings.hooks (renderHooks "  "))

end SettingsGenerator

/-! ## Compiler orchestration (src/compiler.ts) -/

structure CompilationFile where
  path : String
  content : String
  executable : Option Bool := none
deriving Repr, DecidableEq

namespace GovernanceCompiler

/-- compiler.ts # generateDocumentation, documentation line for one
filesystem rule: the path is interpolated as a JS template literal
(undefined prints as the text undefined) and the reason is appended
only when truthy. -/
def fsRuleLine (r : PermissionRule) : String :=
  "- `" ++ jsOptStr r.path ++ "`"
    ++ (if jsTruthyStr r.reason then " - " ++ r.reason.getD "" else "") ++ "\n"

/-- Documentation line for one command rule. -/
def cmdRuleLine (r : PermissionRule) : String :=
  "- `" ++ jsOptStr r.pattern ++ "`"
    ++ (if jsTruthyStr r.reason then " - " ++ r.reason.getD "" else "") ++ "\n"

/-- Documentation block for one approval gate (compiler.ts lines
176-187): the trigger line prefers path_pattern over command_pattern
and prints nothing for a tool-only trigger. -/
def gateDoc (g : ApprovalGate) : String :=
  "### " ++ g.name ++ "\n\n"
    ++ "**Trigger:** "
    ++ (if jsTruthyStr g.trigger.path_pattern then
          "Files matching `" ++ g.trigger.path_pattern.getD "" ++ "`"
        else if jsTruthyStr g.trigger.command_pattern then
          "Commands matching `" ++ g.trigger.command_pattern.getD "" ++ "`"
        else "")
    ++ "\n\n"
    ++ "**Action:** " ++ actionTypeStr g.action.type ++ "\n\n"

def controlDoc (c : ComplianceControl) : String :=
  "**" ++ c.id ++ ":** " ++ c.description ++ "\n"
    ++ "- Satisfied by: " ++ String.intercalate ", " c.satisfied_by ++ "\n\n"

def frameworkDoc (fw : ComplianceFramework) : String :=
  "### " ++ fw.name ++ "\n\n" ++ String.join (fw.controls.map controlDoc)

/-- compiler.ts # generateDocumentation: the GOVERNANCE.md text. -/
def generateDocumentation (config : GovernanceConfig) : String :=
  "# Governance Documentation\n\n"
    ++ "Project: " ++ config.project ++ "\n\n"
    ++ (if jsTruthyStr config.description then
          config.description.getD "" ++ "\n\n"
        else "")
    ++ "## Overview\n\n"
    ++ "This project uses Claude Code Governance framework for:\n\n"
    ++ "- Automated policy enforcement during development\n"
    ++ "- CI/CD integration for tamper-proof checks\n"
    ++ "- Compliance control mapping and audit trails\n\n"
    ++ (match config.permissions with
        | none => ""
        | some perms =>
          "## Permissions\n\n"
            ++ (match perms.filesystem with
                | none => ""
                | some fs =>
                  "### Filesystem Access\n\n"
                    ++ (match fs.deny with
                        | some rules =>
                          if rules.length > 0 then
                            "**Blocked paths:**\n"
                              ++ String.join (rules.map fsRuleLine) ++ "\n"
                          else ""
                        | none => "")
                    ++ (match fs.ask with
                        | some rules =>
                          if rules.length > 0 then
                            "**Requires approval:**\n"
                              ++ String.join (rules.map fsRuleLine) ++ "\n"
                          else ""
                        | none => ""))
            ++ (match perms.commands with
                | none => ""
                | some cmds =>
                  "### Command Restrictions\n\n"
                    ++ (match cmds.deny with
                        | some rules =>
                          if rules.length > 0 then
                            "**Blocked commands:**\n"
                              ++ String.join (rules.map cmdRuleLine) ++ "\n"
                          else ""
                        | none => "")))
    ++ (match config.approval_gates with
        | some gates =>
          if gates.length > 0 then
            "## Approval Gates\n\n" ++ String.join (gates.map gateDoc)
          else ""
        | none => "")
    ++ (match config.compliance.bind Compliance.frameworks with
        | some fws =>
          if fws.length > 0 then
            "## Compliance\n\n" ++ String.join (fws.map frameworkDoc)
          else ""
        | none => "")
    ++ "---\n\n"
    ++ "*Auto-generated by [claude-governance](https://github.com/Lopie-Dev/claude-governance)*\n"

/-- compiler.ts # generateFiles: the flat ordered artifact list —
the settings descriptor, then one file per generated hook (marked
executable), then the workflow file, then GOVERNANCE.md.  The baseDir
parameter is accepted and never used, exactly as in the source; the
Handlebars template is the injected text-substitution capability used
by the workflow projector. -/
def generateFiles (tmpl : WorkflowData → String) (config : GovernanceConfig)
    (baseDir : String) : Except String (List CompilationFile) := do
  let settings ← SettingsGenerator.generate config
  let hooks := HooksGenerator.generate config
  let workflow := WorkflowGenerator.generate tmpl config
  return [{ path := ".claude/settings.json"
            content := SettingsGenerator.toJSON settings }]
    ++ hooks.map (fun h =>
        { path := ".claude/hooks/" ++ h.filename, content := h.content
          executable := some h.executable })
    ++ [{ path := ".github/workflows/" ++ workflow.filename
          content := workflow.content },
        { path := "GOVERNANCE.md", content := generateDocumentation config }]

end GovernanceCompiler

/-! ## Validator (src/parser.ts # GovernanceParser)

The raw document is the structured tree produced by the YAML loader.
The schema walk below is the zod validation of GovernanceSchema.
Modelled from the spec: the zod engine itself is an external library
(not under src); spec section 4.1 fixes its observable contract — the
walk covers the entire structural schema, collects every violation
with a dot-joined field path and a message, never stops at the first
one, and carries the allowed set on enum violations.  The walk below
follows the schema declaration in src/schema/governance.ts for the
sections the claims touch (version, project, description, permissions,
secrets, approval_gates); the remaining optional sections are checked
analogously by the real schema. -/

inductive Raw where
  | null : Raw
  | bool : Bool → Raw
  | num : Int → Raw
  | str : String → Raw
  | arr : List Raw → Raw
  | obj : List (String × Raw) → Raw

def rawGet (kvs : List (String × Raw)) (key : String) : Option Raw :=
  match kvs with
  | [] => none
  | (k, v) :: rest => if k == key then some v else rawGet rest key

def typeNameOf : Raw → String
  | .null => "null"
  | .bool _ => "boolean"
  | .num _ => "number"
  | .str _ => "string"
  | .arr _ => "array"
  | .obj _ => "object"

/-- One zod issue: a code, a path (joined with dots when formatted), a
message, and for enum violations the allowed values. -/
structure ZodIssue where
  code : String
  path : List String
  message : String
  options : List String := []
deriving Repr, DecidableEq

namespace GovernanceParser

def expectedMsg (what : String) (v : Raw) : String :=
  "Expected " ++ what ++ ", received " ++ typeNameOf v

def requiredString (kvs : List (String × Raw)) (path : List String)
    (key : String) : List ZodIssue :=
  match rawGet kvs key with
  | none => [{ code := "invalid_type", path := path ++ [key], message := "Required" }]
  | some (.str _) => []
  | some v => [{ code := "invalid_type", path := path ++ [key]
                 message := expectedMsg "string" v }]

def optionalString (kvs : List (String × Raw)) (path : List String)
    (key : String) : List ZodIssue :=
  match rawGet kvs key with
  | none => []
  | some (.str _) => []
  | some v => [{ code := "invalid_type", path := path ++ [key]
                 message := expectedMsg "string" v }]

def optionalNumber (kvs : List (String × Raw)) (path : List String)
    (key : String) : List ZodIssue :=
  match rawGet kvs key with
  | none => []
  | some (.num _) => []
  | some v => [{ code := "invalid_type", path := path ++ [key]
                 message := expectedMsg "number" v }]

def checkStringItem (path : List String) (iv : Nat × Raw) : List ZodIssue :=
  match iv.2 with
  | .str _ => []
  | v => [{ code := "invalid_type", path := path ++ [toString iv.1]
            message := expectedMsg "string" v }]

def optionalStringArray (kvs : List (String × Raw)) (path : List String)
    (key : String) : List ZodIssue :=
  match rawGet kvs key with
  | none => []
  | some (.arr xs) => xs.enum.flatMap (checkStringItem (path ++ [key]))
  | some v => [{ code := "invalid_type", path := path ++ [key]
                 message := expectedMsg "array" v }]

/-- PermissionRuleSchema: three optional strings. -/
def checkPermissionRule (path : List String) (v : Raw) : List ZodIssue :=
  match v with
  | .obj kvs =>
    optionalString kvs path "path"
      ++ optionalString kvs path "pattern"
      ++ optionalString kvs path "reason"
  | v => [{ code := "invalid_type", path := path, message := expectedMsg "object" v }]

def checkOptRuleList (kvs : List (String × Raw)) (path : List String)
    (key : String) : List ZodIssue :=
  match rawGet kvs key with
  | none => []
  | some (.arr xs) =>
    xs.enum.flatMap fun iv => checkPermissionRule (path ++ [key, toString iv.1]) iv.2
  | some v => [{ code := "invalid_type", path := path ++ [key]
                 message := expectedMsg "array" v }]

/-- Filesystem/CommandPermissionsSchema: optional deny/ask/allow rule
lists. -/
def checkScopedPermissions (kvs : List (String × Raw)) (path : List String)
    (key : String) : List ZodIssue :=
  match rawGet kvs key with
  | none => []
  | some (.obj skvs) =>
    checkOptRuleList skvs (path ++ [key]) "deny"
      ++ checkOptRuleList skvs (path ++ [key]) "ask"
      ++ checkOptRuleList skvs (path ++ [key]) "allow"
  | some v => [{ code := "invalid_type", path := path ++ [key]
                 message := expectedMsg "object" v }]

def checkNetworkPermissions (kvs : List (String × Raw)) (path : List String) :
    List ZodIssue :=
  match rawGet kvs "network" with
  | none => []
  | some (.obj nkvs) =>
    optionalStringArray nkvs (path ++ ["network"]) "allowed_domains"
      ++ optionalStringArray nkvs (path ++ ["network"]) "blocked_domains"
  | some v => [{ code := "invalid_type", path := path ++ ["network"]
                 message := expectedMsg "object" v }]

/-- PermissionsSchema. -/
def checkPermissionsSection (kvs : List (String × Raw)) : List ZodIssue :=
  match rawGet kvs "permissions" with
  | none => []
  | some (.obj pkvs) =>
    checkScopedPermissions pkvs ["permissions"] "filesystem"
      ++ checkScopedPermissions pkvs ["permissions"] "commands"
      ++ checkNetworkPermissions pkvs ["permissions"]
  | some v => [{ code := "invalid_type", path := ["permissions"]
                 message := expectedMsg "object" v }]

/-- SecretPatternSchema: pattern required, name optional. -/
def checkSecretPattern (path : List String) (v : Raw) : List ZodIssue :=
  match v with
  | .obj kvs => requiredString kvs path "pattern" ++ optionalString kvs path "name"
  | v => [{ code := "invalid_type", path := path, message := expectedMsg "object" v }]

/-- SecretsSchema. -/
def checkSecretsSection (kvs : List (String × Raw)) : List ZodIssue :=
  match rawGet kvs "secrets" with
  | none => []
  | some (.obj skvs) =>
    optionalString skvs ["secrets"] "policy"
      ++ optionalStringArray skvs ["secrets"] "allowed_sources"
      ++ (match rawGet skvs "detection" with
          | none => []
          | some (.obj dkvs) =>
            (match rawGet dkvs "patterns" with
             | none => []
             | some (.arr xs) =>
               xs.enum.flatMap fun iv =>
                 checkSecretPattern
                   (["secrets", "detection", "patterns", toString iv.1]) iv.2
             | some v => [{ code := "invalid_type"
                            path := ["secrets", "detection", "patterns"]
                            message := expectedMsg "array" v }])
          | some v => [{ code := "invalid_type", path := ["secrets", "detection"]
                         message := expectedMsg "object" v }])
      ++ (match rawGet skvs "enforcement" with
          | none => []
          | some (.obj ekvs) =>
            optionalString ekvs ["secrets", "enforcement"] "hook"
              ++ optionalString ekvs ["secrets", "enforcement"] "action"
              ++ optionalString ekvs ["secrets", "enforcement"] "message"
          | some v => [{ code := "invalid_type", path := ["secrets", "enforcement"]
                         message := expectedMsg "object" v }])
  | some v => [{ code := "invalid_type", path := ["secrets"]
                 message := expectedMsg "object" v }]

/-- The allowed approval-gate action types of
ApprovalGateActionSchema (schema/governance.ts lines 57-62). -/
def actionTypeValues : List String := ["command", "prompt", "agent"]

/-- The type field of ApprovalGateActionSchema: a required member of
the closed enum; an out-of-set string yields an invalid_enum_value
issue carrying the allowed values. -/
def checkActionType (kvs : List (String × Raw)) (path : List String) :
    List ZodIssue :=
  match rawGet kvs "type" with
  | none => [{ code := "invalid_type", path := path ++ ["type"], message := "Required" }]
  | some (.str t) =>
    if t == "command" || t == "prompt" || t == "agent" then []
    else
      [{ code := "invalid_enum_value", path := path ++ ["type"]
         message := "Invalid enum value. Expected command | prompt | agent, received " ++ t
         options := actionTypeValues }]
  | some v => [{ code := "invalid_type", path := path ++ ["type"]
                 message := expectedMsg "string" v }]

/-- ApprovalGateSchema: required name, required trigger object with
three optional strings, required action object with the enum type and
optional command/prompt/timeout. -/
def checkApprovalGate (path : List String) (v : Raw) : List ZodIssue :=
  match v with
  | .obj kvs =>
    requiredString kvs path "name"
      ++ (match rawGet kvs "trigger" with
          | none => [{ code := "invalid_type", path := path ++ ["trigger"]
                       message := "Required" }]
          | some (.obj tkvs) =>
            optionalString tkvs (path ++ ["trigger"]) "tool"
              ++ optionalString tkvs (path ++ ["trigger"]) "path_pattern"
              ++ optionalString tkvs (path ++ ["trigger"]) "command_pattern"
          | some v => [{ code := "invalid_type", path := path ++ ["trigger"]
                         message := expectedMsg "object" v }])
      ++ (match rawGet kvs "action" with
          | none => [{ code := "invalid_type", path := path ++ ["action"]
                       message := "Required" }]
          | some (.obj akvs) =>
            checkActionType akvs (path ++ ["action"])
              ++ optionalString akvs (path ++ ["action"]) "command"
              ++ optionalString akvs (path ++ ["action"]) "prompt"
              ++ optionalNumber akvs (path ++ ["action"]) "timeout"
          | some v => [{ code := "invalid_type", path := path ++ ["action"]
                         message := expectedMsg "object" v }])
  | v => [{ code := "invalid_type", path := path, message := expectedMsg "object" v }]

/-- The full schema walk: every check runs and its issues are
appended, so no violation hides another. -/
def collectIssues (raw : Raw) : List ZodIssue :=
  match raw with
  | .obj kvs =>
    requiredString kvs [] "version"
      ++ requiredString kvs [] "project"
      ++ optionalString kvs [] "description"
      ++ checkPermissionsSection kvs
      ++ checkSecretsSection kvs
      ++ (match rawGet kvs "approval_gates" with
          | none => []
          | some (.arr gs) =>
            gs.enum.flatMap fun iv =>
              checkApprovalGate ["approval_gates", toString iv.1] iv.2
          | some v => [{ code := "invalid_type", path := ["approval_gates"]
                         message := expectedMsg "array" v }])
  | v => [{ code := "invalid_type", path := [], message := expectedMsg "object" v }]

end GovernanceParser

namespace GovernanceParser

def getStr (kvs : List (String × Raw)) (key : String) : Option String :=
  match rawGet kvs key with
  | some (.str s) => some s
  | _ => none

def getNum (kvs : List (String × Raw)) (key : String) : Option Int :=
  match rawGet kvs key with
  | some (.num n) => some n
  | _ => none

def toPermissionRule (v : Raw) : PermissionRule :=
  match v with
  | .obj kvs =>
    { path := getStr kvs "path", pattern := getStr kvs "pattern"
      reason := getStr kvs "reason" }
  | _ => {}

def toRuleList (kvs : List (String × Raw)) (key : String) :
    Option (List PermissionRule) :=
  match rawGet kvs key with
  | some (.arr xs) => some (xs.map toPermissionRule)
  | _ => none

def toScoped (kvs : List (String × Raw)) (key : String) :
    Option ScopedPermissions :=
  match rawGet kvs key with
  | some (.obj skvs) =>
    some { deny := toRuleList skvs "deny", ask := toRuleList skvs "ask"
           allow := toRuleList skvs "allow" }
  | _ => none

def toStringList (v : Raw) : List String :=
  v |> fun
    | .arr xs => xs.filterMap fun
        | .str s => some s
        | _ => none
    | _ => []

def toNetwork (kvs : List (String × Raw)) : Option NetworkPermissions :=
  match rawGet kvs "network" with
  | some (.obj nkvs) =>
    some { allowed_domains := (rawGet nkvs "allowed_domains").map toStringList
           blocked_domains := (rawGet nkvs "blocked_domains").map toStringList }
  | _ => none

def toPermissions (kvs : List (String × Raw)) : Option Permissions :=
  match rawGet kvs "permissions" with
  | some (.obj pkvs) =>
    some { filesystem := toScoped pkvs "filesystem"
           commands := toScoped pkvs "commands"
           network := toNetwork pkvs }
  | _ => none

def toSecretPattern (v : Raw) : SecretPattern :=
  match v with
  | .obj kvs => { pattern := (getStr kvs "pattern").getD "", name := getStr kvs "name" }
  | _ => { pattern := "" }

def toSecrets (kvs : List (String × Raw)) : Option Secrets :=
  match rawGet kvs "secrets" with
  | some (.obj skvs) =>
    some { policy := getStr skvs "policy"
           allowed_sources := (rawGet skvs "allowed_sources").map toStringList
           detection :=
             match rawGet skvs "detection" with
             | some (.obj dkvs) =>
               some { patterns :=
                 match rawGet dkvs "patterns" with
                 | some (.arr xs) => some (xs.map toSecretPattern)
                 | _ => none }
             | _ => none
           enforcement :=
             match rawGet skvs "enforcement" with
             | some (.obj ekvs) =>
               some { hook := getStr ekvs "hook", action := getStr ekvs "action"
                      message := getStr ekvs "message" }
             | _ => none }
  | _ => none

def toActionType (s : String) : ActionType :=
  if s == "command" then .command
  else if s == "prompt" then .prompt
  else .agent

def toGate (v : Raw) : ApprovalGate :=
  match v with
  | .obj kvs =>
    { name := (getStr kvs "name").getD ""
      trigger :=
        match rawGet kvs "trigger" with
        | some (.obj tkvs) =>
          { tool := getStr tkvs "tool"
            path_pattern := getStr tkvs "path_pattern"
            command_pattern := getStr tkvs "command_pattern" }
        | _ => {}
      action :=
        match rawGet kvs "action" with
        | some (.obj akvs) =>
          { type := toActionType ((getStr akvs "type").getD "")
            command := getStr akvs "command"
            prompt := getStr akvs "prompt"
            timeout := getNum akvs "timeout" }
        | _ => { type := .command } }
  | _ => { name := "", trigger := {}, action := { type := .command } }

/-- The canonical model built from a raw document that passed
validation.  Sections outside the walked subset (operational, roles,
sandbox, compliance) are left unpopulated here; no claim reads them
through the parser.  On failure this function is never consulted: the
parser returns either a fully-populated model or only errors. -/
def toConfig (raw : Raw) : GovernanceConfig :=
  match raw with
  | .obj kvs =>
    { version := (getStr kvs "version").getD ""
      project := (getStr kvs "project").getD ""
      description := getStr kvs "description"
      permissions := toPermissions kvs
      secrets := toSecrets kvs
      approval_gates :=
        match rawGet kvs "approval_gates" with
        | some (.arr gs) => some (gs.map toGate)
        | _ => none }
  | _ => { version := "", project := "" }

/-- Array.prototype.join with a newline separator. -/
def joinLines : List String → String
  | [] => ""
  | [x] => x
  | x :: xs => x ++ "\n" ++ joinLines xs

/-- parser.ts # formatValidationError, per-issue lines: one line with
the dot-joined path and the message, plus for invalid_enum_value a
second line naming the allowed values. -/
def errLines (err : ZodIssue) : List String :=
  let line := "  - " ++ String.intercalate "." err.path ++ ": " ++ err.message
  if err.code == "invalid_enum_value" then
    [line, "    Allowed values: " ++ String.intercalate ", " err.options]
  else
    [line]

/-- parser.ts # formatValidationError: a header naming the source,
then the lines of every issue, joined with newlines. -/
def formatValidationError (issues : List ZodIssue) (source : String) : String :=
  joinLines (("Validation errors in " ++ source ++ ":") :: issues.flatMap errLines)

/-- parser.ts # parseString after a successful YAML load: zod
validation of the loaded tree.  All issues are collected; when any
exist the aggregated formatted message is thrown, otherwise the
canonical model is returned.  (The YAML syntax-error path concerns the
external YAML loader and is outside this embedding.) -/
def parseGovernance (raw : Raw) (source : String) :
    Except String GovernanceConfig :=
  match collectIssues raw with
  | [] => .ok (toConfig raw)
  | issues => .error (formatValidationError issues source)

end GovernanceParser

/-! ## Helper lemmas -/

namespace SettingsGenerator

/-- Every branch of the hook-event classification yields PreToolUse. -/
theorem hookEventOf_eq (g : ApprovalGate) : hookEventOf g = "PreToolUse" := by
  simp [hookEventOf]

/-- The matcher entry built for one gate inside generateHooksConfig. -/
def gateEntry (g : ApprovalGate) : HookMatcherEntry :=
  { matcher := matcherOf g.trigger, hooks := [mkHookConfig g.action] }

theorem foldl_pushAssoc (gates : List ApprovalGate) (acc : List HookMatcherEntry) :
    gates.foldl (fun hooks gate =>
        pushAssoc hooks (hookEventOf gate)
          { matcher := matcherOf gate.trigger, hooks := [mkHookConfig gate.action] })
      [("PreToolUse", acc)]
      = [("PreToolUse", acc ++ gates.map gateEntry)] := by
  induction gates generalizing acc with
  | nil => simp
  | cons g gs ih =>
    rw [List.foldl_cons, hookEventOf_eq]
    have hpush : pushAssoc [("PreToolUse", acc)] "PreToolUse"
        { matcher := matcherOf g.trigger, hooks := [mkHookConfig g.action] }
        = [("PreToolUse", acc ++ [gateEntry g])] := rfl
    rw [hpush, ih]
    simp [gateEntry]

/-- Shape of the generated hooks object: with a nonempty gate list, a
single PreToolUse key whose entries are the per-gate matcher entries
in declaration order. -/
theorem generateHooksConfig_eq (config : GovernanceConfig)
    (gates : List ApprovalGate) (hgates : config.approval_gates = some gates)
    (hne : gates ≠ []) :
    generateHooksConfig config = [("PreToolUse", gates.map gateEntry)] := by
  unfold generateHooksConfig
  rw [hgates]
  cases gates with
  | nil => exact absurd rfl hne
  | cons g gs =>
    dsimp only
    rw [if_neg (by simp)]
    rw [List.foldl_cons, hookEventOf_eq]
    have hpush : pushAssoc [] "PreToolUse"
        { matcher := matcherOf g.trigger, hooks := [mkHookConfig g.action] }
        = [("PreToolUse", [gateEntry g])] := rfl
    rw [hpush, foldl_pushAssoc]
    simp [gateEntry]

end SettingsGenerator

/-- A document holding only the two mandatory fields. -/
def minimalConfig (v p : String) : GovernanceConfig :=
  { version := v, project := p }

/-- C1: Compilation is deterministic — for every fixed valid document
(and fixed injected workflow template), running the projection
pipeline to two independent output locations produces byte-identical
artifact lists: the same relative paths, contents and executable
flags in the same order.  The output location does not influence any
generated artifact. -/
theorem compile_deterministic (tmpl : WorkflowData → String)
    (config : GovernanceConfig) (out1 out2 : String) :
    GovernanceCompiler.generateFiles tmpl config out1
      = GovernanceCompiler.generateFiles tmpl config out2 := rfl

/-- C8: A document with only the mandatory version and project fields
compiles successfully; its local enforcement descriptor has none of
the permissions, sandbox or hooks keys, and the pipeline-definition
data has empty extracted lists, no billing mode, and a false
infrastructure flag. -/
theorem minimal_document_compiles (v p : String)
    (tmpl : WorkflowData → String) (outDir : String) :
    SettingsGenerator.generate (minimalConfig v p)
        = .ok { permissions := none, sandbox := none, hooks := none }
      ∧ WorkflowGenerator.workflowData (minimalConfig v p)
        = { projectName := p, protectedBranches := [], secretPatterns := []
            hasTerraform := false, dynamodbBillingMode := none
            contractorMembers := [], complianceControls := [] }
      ∧ ∃ files, GovernanceCompiler.generateFiles tmpl (minimalConfig v p) outDir
          = .ok files :=
  ⟨rfl, rfl, _, rfl⟩

/-- C4 (amended): every approval gate is bound under the PreToolUse
event; its matcher is the gate's tool name when the tool field is
present and non-empty — even when a command or path pattern is also
present — otherwise Bash for a gate with a non-empty command pattern,
otherwise Edit|Write for a gate with a non-empty path pattern,
otherwise the empty string.  (The unamended claim fails for a present
but empty tool name, see the counterexample.) -/
theorem gate_matcher_tool_precedence (config : GovernanceConfig)
    (gates : List ApprovalGate) (i : Nat) (g : ApprovalGate)
    (hgates : config.approval_gates = some gates)
    (hi : gates[i]? = some g) :
    ∃ entries, SettingsGenerator.generateHooksConfig config
        = [("PreToolUse", entries)]
      ∧ entries.length = gates.length
      ∧ entries[i]? = some
          { matcher :=
              if jsTruthyStr g.trigger.tool then g.trigger.tool.getD ""
              else if jsTruthyStr g.trigger.command_pattern then "Bash"
              else if jsTruthyStr g.trigger.path_pattern then "Edit|Write"
              else ""
            hooks := [SettingsGenerator.mkHookConfig g.action] } := by
  have hne : gates ≠ [] := by
    intro h
    rw [h] at hi
    simp at hi
  refine ⟨gates.map SettingsGenerator.gateEntry,
    SettingsGenerator.generateHooksConfig_eq config gates hgates hne, by simp, ?_⟩
  rw [List.getElem?_map, hi]
  rfl

/-- C4 counterexample: a gate whose trigger carries a present but
empty tool name together with a command pattern.  The claim as stated
says the matcher must then be the tool name (the empty string); the
generator instead ignores the falsy tool field and emits Bash. -/
def emptyToolGate : ApprovalGate :=
  { name := "deploy-gate",
    trigger := { tool := some "", command_pattern := some "git push .* main" },
    action := { type := .prompt, prompt := some "Deploy?" } }

def emptyToolConfig : GovernanceConfig :=
  { version := "1.0", project := "demo", approval_gates := some [emptyToolGate] }

/-- C4 counterexample theorem: the tool field is present, yet the
emitted matcher is Bash, not the (empty) tool name. -/
theorem gate_tool_present_counterexample :
    emptyToolGate.trigger.tool.isSome = true
    ∧ SettingsGenerator.generateHooksConfig emptyToolConfig
        = [("PreToolUse",
            [{ matcher := "Bash",
               hooks := [{ type := "prompt", prompt := some "Deploy?" }] }])]
    ∧ ("Bash" : String) ≠ emptyToolGate.trigger.tool.getD "" := by
  refine ⟨rfl, rfl, ?_⟩
  decide

/-- C4 witness: a gate with tool Bash and a command pattern present —
the tool name wins and the gate is bound under PreToolUse. -/
def toolWinsGate : ApprovalGate :=
  { name := "gate",
    trigger := { tool := some "Bash", command_pattern := some "git push .* main" },
    action := { type := .prompt, prompt := some "ok?" } }

def toolWinsConfig : GovernanceConfig :=
  { version := "1.0", project := "demo", approval_gates := some [toolWinsGate] }

theorem gate_matcher_tool_precedence_witness :
    ∃ entries, SettingsGenerator.generateHooksConfig toolWinsConfig
        = [("PreToolUse", entries)]
      ∧ entries.length = 1
      ∧ entries[0]? = some
          { matcher := "Bash"
            hooks := [SettingsGenerator.mkHookConfig toolWinsGate.action] } := by
  obtain ⟨entries, h1, h2, h3⟩ :=
    gate_matcher_tool_precedence toolWinsConfig [toolWinsGate] 0 toolWinsGate rfl rfl
  exact ⟨entries, h1, h2, h3.trans rfl⟩

/-- C10: hook-binding fields are carried by truthiness, not presence:
for every approval gate, the generated binding includes the command,
prompt or timeout field exactly when that action value is truthy
(an absent field, an empty string, and a zero timeout are all
omitted); the action type is always carried. -/
theorem hook_fields_follow_truthiness (config : GovernanceConfig)
    (gates : List ApprovalGate) (i : Nat) (g : ApprovalGate)
    (hgates : config.approval_gates = some gates)
    (hi : gates[i]? = some g) :
    ∃ entries e, SettingsGenerator.generateHooksConfig config
        = [("PreToolUse", entries)]
      ∧ entries[i]? = some e
      ∧ e.hooks = [{
          type := actionTypeStr g.action.type,
          command := if jsTruthyStr g.action.command then g.action.command else none,
          prompt := if jsTruthyStr g.action.prompt then g.action.prompt else none,
          timeout := if jsTruthyNum g.action.timeout then g.action.timeout else none }] := by
  have hne : gates ≠ [] := by
    intro h
    rw [h] at hi
    simp at hi
  refine ⟨gates.map SettingsGenerator.gateEntry, SettingsGenerator.gateEntry g,
    SettingsGenerator.generateHooksConfig_eq config gates hgates hne, ?_, rfl⟩
  rw [List.getElem?_map, hi]
  rfl

/-- C10 witness: a gate declaring timeout 0, an empty command and an
empty prompt — all three fields are omitted from the binding. -/
def falsyActionGate : ApprovalGate :=
  { name := "edge",
    trigger := { tool := some "Bash" },
    action := { type := .command, command := some "", prompt := some ""
                timeout := some 0 } }

def falsyActionConfig : GovernanceConfig :=
  { version := "1.0", project := "demo", approval_gates := some [falsyActionGate] }

theorem hook_fields_follow_truthiness_witness :
    ∃ entries e, SettingsGenerator.generateHooksConfig falsyActionConfig
        = [("PreToolUse", entries)]
      ∧ entries[0]? = some e
      ∧ e.hooks = [{ type := "command", command := none, prompt := none
                     timeout := none }] := by
  obtain ⟨entries, e, h1, h2, h3⟩ :=
    hook_fields_follow_truthiness falsyActionConfig [falsyActionGate] 0
      falsyActionGate rfl rfl
  exact ⟨entries, e, h1, h2, h3.trans rfl⟩

/-! ## Permission-list lemmas (C2, C3, C5) -/

namespace SettingsGenerator

/-- The filesystem rule list selected by sel, read as [] when the
section or the list is absent. -/
def fsListOf (config : GovernanceConfig)
    (sel : ScopedPermissions → Option (List PermissionRule)) : List PermissionRule :=
  ((config.permissions.bind Permissions.filesystem).bind sel).getD []

/-- The command rule list selected by sel. -/
def cmdListOf (config : GovernanceConfig)
    (sel : ScopedPermissions → Option (List PermissionRule)) : List PermissionRule :=
  ((config.permissions.bind Permissions.commands).bind sel).getD []

/-- The text a well-formed filesystem rule renders to. -/
def fsRuleText (r : PermissionRule) : String :=
  "Read|Write|Edit(" ++ r.path.getD "" ++ ")"

/-- The text a well-formed command rule renders to. -/
def cmdRuleText (r : PermissionRule) : String :=
  "Bash(" ++ r.pattern.getD "" ++ ")"

theorem formatFilePermission_ok (r : PermissionRule) (p : String)
    (hp : r.path = some p) (hne : p ≠ "") :
    formatFilePermission r "Read|Write|Edit" = .ok (fsRuleText r) := by
  unfold formatFilePermission fsRuleText
  rw [hp]
  have ht : jsTruthyStr (some p) = true := by simp [jsTruthyStr, hne]
  rw [ht]
  simp only [Bool.not_true, Bool.false_eq_true, if_false, ite_self, Option.getD_some]
  rw [show ("Read|Write|Edit" ++ "(" : String) = "Read|Write|Edit(" from rfl]

theorem formatBashPermission_ok (r : PermissionRule) (q : String)
    (hq : r.pattern = some q) (hne : q ≠ "") :
    formatBashPermission r = .ok (cmdRuleText r) := by
  unfold formatBashPermission cmdRuleText
  rw [hq]
  have ht : jsTruthyStr (some q) = true := by simp [jsTruthyStr, hne]
  rw [ht]
  simp

theorem mapExcept_ok (f : α → Except ε β) (g : α → β) :
    ∀ (rs : List α), (∀ r ∈ rs, f r = .ok (g r)) →
      mapExcept f rs = .ok (rs.map g)
  | [], _ => rfl
  | x :: xs, h => by
    have hx := h x (List.mem_cons_self x xs)
    have ihh := mapExcept_ok f g xs (fun r hr => h r (List.mem_cons_of_mem _ hr))
    simp only [mapExcept, hx, ihh]
    rfl

theorem mapExcept_ok_length (f : α → Except ε β) :
    ∀ (rs : List α) (ys : List β), mapExcept f rs = .ok ys → ys.length = rs.length
  | [], ys, h => by
    simp only [mapExcept] at h
    cases h
    rfl
  | x :: xs, ys, h => by
    simp only [mapExcept] at h
    cases hx : f x with
    | error e => rw [hx] at h; cases h
    | ok y =>
      rw [hx] at h
      cases hxs : mapExcept f xs with
      | error e => rw [hxs] at h; cases h
      | ok ys2 =>
        rw [hxs] at h
        cases h
        simp [mapExcept_ok_length f xs ys2 hxs]

theorem mapExcept_ok_nth (f : α → Except ε β) :
    ∀ (rs : List α) (ys : List β) (i : Nat) (r : α),
      mapExcept f rs = .ok ys → rs[i]? = some r →
      ∃ y, ys[i]? = some y ∧ f r = .ok y
  | [], _, i, r, _, hi => by simp at hi
  | x :: xs, ys, i, r, h, hi => by
    simp only [mapExcept] at h
    cases hx : f x with
    | error e => rw [hx] at h; cases h
    | ok y =>
      rw [hx] at h
      cases hxs : mapExcept f xs with
      | error e => rw [hxs] at h; cases h
      | ok ys2 =>
        rw [hxs] at h
        cases h
        cases i with
        | zero =>
          simp only [List.getElem?_cons_zero, Option.some_inj] at hi
          exact ⟨y, by simp, hi ▸ hx⟩
        | succ n =>
          simp only [List.getElem?_cons_succ] at hi
          obtain ⟨y2, hy2, hf⟩ := mapExcept_ok_nth f xs ys2 n r hxs hi
          exact ⟨y2, by simpa using hy2, hf⟩

/-- The pure value pushRules produces when every formatter call
succeeds. -/
def pushPure (cur : Option (List String)) (rules : Option (List PermissionRule))
    (fmt : PermissionRule → String) : Option (List String) :=
  match rules with
  | none => cur
  | some rs => if rs.length > 0 then some (cur.getD [] ++ rs.map fmt) else cur

theorem pushRules_ok (cur : Option (List String))
    (rules : Option (List PermissionRule))
    (fmtE : PermissionRule → Except String String) (fmt : PermissionRule → String)
    (h : ∀ r ∈ rules.getD [], fmtE r = .ok (fmt r)) :
    pushRules cur rules fmtE = .ok (pushPure cur rules fmt) := by
  cases rules with
  | none => rfl
  | some rs =>
    simp only [pushRules, pushPure]
    by_cases hlen : rs.length > 0
    · rw [if_pos hlen, if_pos hlen]
      have hm := mapExcept_ok fmtE fmt rs (by simpa using h)
      rw [hm]
      rfl
    · rw [if_neg hlen, if_neg hlen]

theorem pushPure_getD (cur : Option (List String))
    (rules : Option (List PermissionRule)) (fmt : PermissionRule → String) :
    (pushPure cur rules fmt).getD [] = cur.getD [] ++ (rules.getD []).map fmt := by
  cases rules with
  | none => simp [pushPure]
  | some rs =>
    simp only [pushPure, Option.getD_some]
    by_cases hlen : rs.length > 0
    · rw [if_pos hlen]
      simp
    · rw [if_neg hlen]
      have : rs = [] := List.length_eq_zero.mp (Nat.eq_zero_of_not_pos hlen)
      subst this
      simp

end SettingsGenerator

/-- Reduction of an Except bind applied to a success value. -/
theorem okBind {ε : Type u} {α β : Type v} (a : α) (f : α → Except ε β) :
    (Except.ok a : Except ε α) >>= f = f a := rfl

/-- Full characterization of generatePermissions on documents whose
rules are renderable: each output list is the formatted filesystem
rules of that list followed by the formatted command rules of that
list, in declaration order. -/
theorem generatePermissions_spec (config : GovernanceConfig)
    (hfs : ∀ r ∈ SettingsGenerator.fsListOf config ScopedPermissions.deny
        ++ SettingsGenerator.fsListOf config ScopedPermissions.ask
        ++ SettingsGenerator.fsListOf config ScopedPermissions.allow,
        ∃ p, r.path = some p ∧ p ≠ "")
    (hcmd : ∀ r ∈ SettingsGenerator.cmdListOf config ScopedPermissions.deny
        ++ SettingsGenerator.cmdListOf config ScopedPermissions.ask
        ++ SettingsGenerator.cmdListOf config ScopedPermissions.allow,
        ∃ q, r.pattern = some q ∧ q ≠ "") :
    ∃ perms, SettingsGenerator.generatePermissions config = .ok perms
      ∧ perms.deny.getD []
          = (SettingsGenerator.fsListOf config ScopedPermissions.deny).map
              SettingsGenerator.fsRuleText
            ++ (SettingsGenerator.cmdListOf config ScopedPermissions.deny).map
              SettingsGenerator.cmdRuleText
      ∧ perms.ask.getD []
          = (SettingsGenerator.fsListOf config ScopedPermissions.ask).map
              SettingsGenerator.fsRuleText
            ++ (SettingsGenerator.cmdListOf config ScopedPermissions.ask).map
              SettingsGenerator.cmdRuleText
      ∧ perms.allow.getD []
          = (SettingsGenerator.fsListOf config ScopedPermissions.allow).map
              SettingsGenerator.fsRuleText
            ++ (SettingsGenerator.cmdListOf config ScopedPermissions.allow).map
              SettingsGenerator.cmdRuleText := by
  classical
  have hfd : ∀ r ∈ ((config.permissions.bind Permissions.filesystem).bind
      ScopedPermissions.deny).getD [],
      SettingsGenerator.formatFilePermission r "Read|Write|Edit"
        = .ok (SettingsGenerator.fsRuleText r) := by
    intro r hr
    obtain ⟨p, hp, hne⟩ := hfs r (List.mem_append_left _ (List.mem_append_left _ hr))
    exact SettingsGenerator.formatFilePermission_ok r p hp hne
  have hfa : ∀ r ∈ ((config.permissions.bind Permissions.filesystem).bind
      ScopedPermissions.ask).getD [],
      SettingsGenerator.formatFilePermission r "Read|Write|Edit"
        = .ok (SettingsGenerator.fsRuleText r) := by
    intro r hr
    obtain ⟨p, hp, hne⟩ := hfs r (List.mem_append_left _ (List.mem_append_right _ hr))
    exact SettingsGenerator.formatFilePermission_ok r p hp hne
  have hfw : ∀ r ∈ ((config.permissions.bind Permissions.filesystem).bind
      ScopedPermissions.allow).getD [],
      SettingsGenerator.formatFilePermission r "Read|Write|Edit"
        = .ok (SettingsGenerator.fsRuleText r) := by
    intro r hr
    obtain ⟨p, hp, hne⟩ := hfs r (List.mem_append_right _ hr)
    exact SettingsGenerator.formatFilePermission_ok r p hp hne
  have hcd : ∀ r ∈ ((config.permissions.bind Permissions.commands).bind
      ScopedPermissions.deny).getD [],
      SettingsGenerator.formatBashPermission r = .ok (SettingsGenerator.cmdRuleText r) := by
    intro r hr
    obtain ⟨q, hq, hne⟩ := hcmd r (List.mem_append_left _ (List.mem_append_left _ hr))
    exact SettingsGenerator.formatBashPermission_ok r q hq hne
  have hca : ∀ r ∈ ((config.permissions.bind Permissions.commands).bind
      ScopedPermissions.ask).getD [],
      SettingsGenerator.formatBashPermission r = .ok (SettingsGenerator.cmdRuleText r) := by
    intro r hr
    obtain ⟨q, hq, hne⟩ := hcmd r (List.mem_append_left _ (List.mem_append_right _ hr))
    exact SettingsGenerator.formatBashPermission_ok r q hq hne
  have hcw : ∀ r ∈ ((config.permissions.bind Permissions.commands).bind
      ScopedPermissions.allow).getD [],
      SettingsGenerator.formatBashPermission r = .ok (SettingsGenerator.cmdRuleText r) := by
    intro r hr
    obtain ⟨q, hq, hne⟩ := hcmd r (List.mem_append_right _ hr)
    exact SettingsGenerator.formatBashPermission_ok r q hq hne
  have h1 := SettingsGenerator.pushRules_ok none _ _ SettingsGenerator.fsRuleText hfd
  have h2 := SettingsGenerator.pushRules_ok none _ _ SettingsGenerator.fsRuleText hfa
  have h3 := SettingsGenerator.pushRules_ok none _ _ SettingsGenerator.fsRuleText hfw
  have h4 := SettingsGenerator.pushRules_ok
    (SettingsGenerator.pushPure none ((config.permissions.bind Permissions.filesystem).bind
      ScopedPermissions.deny) SettingsGenerator.fsRuleText) _ _
    SettingsGenerator.cmdRuleText hcd
  have h5 := SettingsGenerator.pushRules_ok
    (SettingsGenerator.pushPure none ((config.permissions.bind Permissions.filesystem).bind
      ScopedPermissions.ask) SettingsGenerator.fsRuleText) _ _
    SettingsGenerator.cmdRuleText hca
  have h6 := SettingsGenerator.pushRules_ok
    (SettingsGenerator.pushPure none ((config.permissions.bind Permissions.filesystem).bind
      ScopedPermissions.allow) SettingsGenerator.fsRuleText) _ _
    SettingsGenerator.cmdRuleText hcw
  refine ⟨{
      allow := SettingsGenerator.pushPure
        (SettingsGenerator.pushPure none ((config.permissions.bind Permissions.filesystem).bind
          ScopedPermissions.allow) SettingsGenerator.fsRuleText)
        ((config.permissions.bind Permissions.commands).bind ScopedPermissions.allow)
        SettingsGenerator.cmdRuleText,
      deny := SettingsGenerator.pushPure
        (SettingsGenerator.pushPure none ((config.permissions.bind Permissions.filesystem).bind
          ScopedPermissions.deny) SettingsGenerator.fsRuleText)
        ((config.permissions.bind Permissions.commands).bind ScopedPermissions.deny)
        SettingsGenerator.cmdRuleText,
      ask := SettingsGenerator.pushPure
        (SettingsGenerator.pushPure none ((config.permissions.bind Permissions.filesystem).bind
          ScopedPermissions.ask) SettingsGenerator.fsRuleText)
        ((config.permissions.bind Permissions.commands).bind ScopedPermissions.ask)
        SettingsGenerator.cmdRuleText }, ?_, ?_, ?_, ?_⟩
  · unfold SettingsGenerator.generatePermissions
    dsimp only
    rw [h1, okBind, h2, okBind, h3, okBind, h4, okBind, h5, okBind, h6, okBind]
    rfl
  · rw [SettingsGenerator.pushPure_getD, SettingsGenerator.pushPure_getD]
    simp [SettingsGenerator.fsListOf, SettingsGenerator.cmdListOf]
  · rw [SettingsGenerator.pushPure_getD, SettingsGenerator.pushPure_getD]
    simp [SettingsGenerator.fsListOf, SettingsGenerator.cmdListOf]
  · rw [SettingsGenerator.pushPure_getD, SettingsGenerator.pushPure_getD]
    simp [SettingsGenerator.fsListOf, SettingsGenerator.cmdListOf]

/-- C2: each of the descriptor's deny, ask and allow lists is exactly
the formatted filesystem rules of that list in declaration order,
followed by the formatted command rules of that list in declaration
order; the three lists are never merged with each other and never
reordered.  Stated for documents whose rules are renderable (every
rule carries a non-empty scope-appropriate field). -/
theorem permissions_scope_concat (config : GovernanceConfig)
    (hfs : ∀ r ∈ SettingsGenerator.fsListOf config ScopedPermissions.deny
        ++ SettingsGenerator.fsListOf config ScopedPermissions.ask
        ++ SettingsGenerator.fsListOf config ScopedPermissions.allow,
        ∃ p, r.path = some p ∧ p ≠ "")
    (hcmd : ∀ r ∈ SettingsGenerator.cmdListOf config ScopedPermissions.deny
        ++ SettingsGenerator.cmdListOf config ScopedPermissions.ask
        ++ SettingsGenerator.cmdListOf config ScopedPermissions.allow,
        ∃ q, r.pattern = some q ∧ q ≠ "") :
    ∃ perms, SettingsGenerator.generatePermissions config = .ok perms
      ∧ perms.deny.getD []
          = (SettingsGenerator.fsListOf config ScopedPermissions.deny).map
              SettingsGenerator.fsRuleText
            ++ (SettingsGenerator.cmdListOf config ScopedPermissions.deny).map
              SettingsGenerator.cmdRuleText
      ∧ perms.ask.getD []
          = (SettingsGenerator.fsListOf config ScopedPermissions.ask).map
              SettingsGenerator.fsRuleText
            ++ (SettingsGenerator.cmdListOf config ScopedPermissions.ask).map
              SettingsGenerator.cmdRuleText
      ∧ perms.allow.getD []
          = (SettingsGenerator.fsListOf config ScopedPermissions.allow).map
              SettingsGenerator.fsRuleText
            ++ (SettingsGenerator.cmdListOf config ScopedPermissions.allow).map
              SettingsGenerator.cmdRuleText :=
  generatePermissions_spec config hfs hcmd

/-- C2 witness: filesystem deny [A, B] and ask [C], plus one command
deny rule — the descriptor keeps [A, B] in deny (before the command
rule) and [C] in ask, unmerged and in order. -/
def orderedRulesConfig : GovernanceConfig :=
  { version := "1.0", project := "demo",
    permissions := some
      { filesystem := some
          { deny := some [{ path := some ".env*" }, { path := some "secrets/**" }],
            ask := some [{ path := some "infra/**" }] },
        commands := some
          { deny := some [{ pattern := some "rm -rf *" }] } } }

theorem permissions_scope_concat_witness :
    ∃ perms, SettingsGenerator.generatePermissions orderedRulesConfig = .ok perms
      ∧ perms.deny.getD []
          = ["Read|Write|Edit(.env*)", "Read|Write|Edit(secrets/**)", "Bash(rm -rf *)"]
      ∧ perms.ask.getD [] = ["Read|Write|Edit(infra/**)"]
      ∧ perms.allow.getD [] = [] := by
  obtain ⟨perms, h1, h2, h3, h4⟩ := permissions_scope_concat orderedRulesConfig
    (by
      intro r hr
      simp [SettingsGenerator.fsListOf, orderedRulesConfig] at hr
      rcases hr with h | h | h <;> subst h <;> exact ⟨_, rfl, by decide⟩)
    (by
      intro r hr
      simp [SettingsGenerator.cmdListOf, orderedRulesConfig] at hr
      subst hr
      exact ⟨_, rfl, by decide⟩)
  exact ⟨perms, h1, h2.trans rfl, h3.trans rfl, h4.trans rfl⟩

/-- C3: a filesystem deny rule with path glob .env* renders as exactly
the string Read|Write|Edit(.env*) in the descriptor's deny list, at
the index given by its declaration order (filesystem deny rules come
first, so index i among the filesystem deny rules is index i of the
descriptor's deny list); command rules render as Bash(pattern) with
the glob inserted verbatim.  Stated for documents whose rules are
renderable. -/
theorem env_deny_rule_rendering (config : GovernanceConfig) (i : Nat)
    (r : PermissionRule)
    (hfs : ∀ r2 ∈ SettingsGenerator.fsListOf config ScopedPermissions.deny
        ++ SettingsGenerator.fsListOf config ScopedPermissions.ask
        ++ SettingsGenerator.fsListOf config ScopedPermissions.allow,
        ∃ p, r2.path = some p ∧ p ≠ "")
    (hcmd : ∀ r2 ∈ SettingsGenerator.cmdListOf config ScopedPermissions.deny
        ++ SettingsGenerator.cmdListOf config ScopedPermissions.ask
        ++ SettingsGenerator.cmdListOf config ScopedPermissions.allow,
        ∃ q, r2.pattern = some q ∧ q ≠ "")
    (hr : (SettingsGenerator.fsListOf config ScopedPermissions.deny)[i]? = some r)
    (hpath : r.path = some ".env*") :
    ∃ perms, SettingsGenerator.generatePermissions config = .ok perms
      ∧ (perms.deny.getD [])[i]? = some "Read|Write|Edit(.env*)"
      ∧ ∀ (r2 : PermissionRule) (q : String), r2.pattern = some q → q ≠ "" →
          SettingsGenerator.formatBashPermission r2 = .ok ("Bash(" ++ q ++ ")") := by
  obtain ⟨perms, hok, hdeny, _, _⟩ := generatePermissions_spec config hfs hcmd
  have hi : i < (SettingsGenerator.fsListOf config ScopedPermissions.deny).length := by
    rcases List.getElem?_eq_some.mp hr with ⟨h, _⟩
    exact h
  refine ⟨perms, hok, ?_, ?_⟩
  · rw [hdeny, List.getElem?_append, if_pos (by simpa using hi),
      List.getElem?_map, hr, Option.map_some']
    rw [show SettingsGenerator.fsRuleText r
        = "Read|Write|Edit(" ++ r.path.getD "" ++ ")" from rfl, hpath]
    rfl
  · intro r2 q hq hne
    have h := SettingsGenerator.formatBashPermission_ok r2 q hq hne
    rw [h]
    rw [show SettingsGenerator.cmdRuleText r2
        = "Bash(" ++ r2.pattern.getD "" ++ ")" from rfl, hq]
    rfl

/-- C3 witness: one .env* filesystem deny rule at index 0 and one
command deny rule rendered verbatim. -/
def envRuleConfig : GovernanceConfig :=
  { version := "1.0", project := "demo",
    permissions := some
      { filesystem := some { deny := some [{ path := some ".env*" }] },
        commands := some { deny := some [{ pattern := some "git push --force*" }] } } }

theorem env_deny_rule_rendering_witness :
    ∃ perms, SettingsGenerator.generatePermissions envRuleConfig = .ok perms
      ∧ (perms.deny.getD [])[0]? = some "Read|Write|Edit(.env*)"
      ∧ ∀ (r2 : PermissionRule) (q : String), r2.pattern = some q → q ≠ "" →
          SettingsGenerator.formatBashPermission r2 = .ok ("Bash(" ++ q ++ ")") :=
  env_deny_rule_rendering envRuleConfig 0 { path := some ".env*" }
    (by
      intro r2 hr2
      simp [SettingsGenerator.fsListOf, envRuleConfig] at hr2
      subst hr2
      exact ⟨_, rfl, by decide⟩)
    (by
      intro r2 hr2
      simp [SettingsGenerator.cmdListOf, envRuleConfig] at hr2
      subst hr2
      exact ⟨_, rfl, by decide⟩)
    rfl rfl

/-- C5 (amended): rendering a filesystem rule with a missing path, or
a command rule with a missing pattern, raises an immediate descriptive
error at projection time, while a rule without its scope-appropriate
field passes schema validation (no parse-time issue); rendering
succeeds whenever every rule carries a NON-EMPTY scope-appropriate
field.  (The unamended claim — success whenever the field is merely
present — fails for a present empty field, see the counterexample.) -/
theorem rule_format_scope_field_errors :
    (∀ (r : PermissionRule) (tools : String), r.path = none →
        SettingsGenerator.formatFilePermission r tools
          = .error "Filesystem permission rule must have a path")
    ∧ (∀ (r : PermissionRule), r.pattern = none →
        SettingsGenerator.formatBashPermission r
          = .error "Command permission rule must have a pattern")
    ∧ (∀ (r : PermissionRule) (tools p : String), r.path = some p → p ≠ "" →
        ∃ s, SettingsGenerator.formatFilePermission r tools = .ok s)
    ∧ (∀ (r : PermissionRule) (q : String), r.pattern = some q → q ≠ "" →
        ∃ s, SettingsGenerator.formatBashPermission r = .ok s)
    ∧ GovernanceParser.checkPermissionRule
        ["permissions", "filesystem", "deny", "0"] (Raw.obj []) = [] := by
  refine ⟨?_, ?_, ?_, ?_, rfl⟩
  · intro r tools hp
    unfold SettingsGenerator.formatFilePermission
    rw [hp]
    rfl
  · intro r hq
    unfold SettingsGenerator.formatBashPermission
    rw [hq]
    rfl
  · intro r tools p hp hne
    refine ⟨tools ++ "(" ++ p ++ ")", ?_⟩
    unfold SettingsGenerator.formatFilePermission
    rw [hp]
    have ht : jsTruthyStr (some p) = true := by simp [jsTruthyStr, hne]
    rw [ht]
    simp only [Bool.not_true, Bool.false_eq_true, if_false, ite_self, Option.getD_some]
  · intro r q hq hne
    refine ⟨"Bash(" ++ q ++ ")", ?_⟩
    unfold SettingsGenerator.formatBashPermission
    rw [hq]
    have ht : jsTruthyStr (some q) = true := by simp [jsTruthyStr, hne]
    rw [ht]
    rfl

/-- C5 counterexample: a filesystem rule carrying its path field with
the empty string value.  The claim as stated says rendering succeeds
whenever every rule carries its scope-appropriate field; the renderer
instead raises the missing-path error for the falsy value, and a
document containing the rule fails projection. -/
def emptyPathConfig : GovernanceConfig :=
  { version := "1.0", project := "demo",
    permissions := some
      { filesystem := some { deny := some [{ path := some "" }] } } }

theorem empty_path_rule_counterexample :
    (({ path := some "" } : PermissionRule)).path.isSome = true
    ∧ SettingsGenerator.formatFilePermission { path := some "" } "Read|Write|Edit"
        = .error "Filesystem permission rule must have a path"
    ∧ SettingsGenerator.generatePermissions emptyPathConfig
        = .error "Filesystem permission rule must have a path" :=
  ⟨rfl, rfl, rfl⟩

/-- C5 witness: concrete instances of the amended statement. -/
theorem rule_format_scope_field_errors_witness :
    SettingsGenerator.formatFilePermission { pattern := some "x" } "Read|Write|Edit"
        = .error "Filesystem permission rule must have a path"
    ∧ SettingsGenerator.formatBashPermission { path := some "x" }
        = .error "Command permission rule must have a pattern"
    ∧ (∃ s, SettingsGenerator.formatFilePermission { path := some ".env*" }
        "Read|Write|Edit" = .ok s)
    ∧ (∃ s, SettingsGenerator.formatBashPermission { pattern := some "rm -rf *" }
        = .ok s) := by
  obtain ⟨h1, h2, h3, h4, _⟩ := rule_format_scope_field_errors
  exact ⟨h1 _ _ rfl, h2 _ rfl, h3 _ _ ".env*" rfl (by decide),
    h4 _ "rm -rf *" rfl (by decide)⟩

/-- C9: the pipeline definition's infrastructure-as-code flag is true
exactly when some approval gate has a path pattern containing .tf or
infrastructure/; a document with no approval gates yields false, and
the workflow extraction functions never fail merely because optional
sections are absent (each yields its empty default). -/
theorem terraform_flag_and_totality (config : GovernanceConfig) :
    (WorkflowGenerator.checkTerraformUsage config = true ↔
      ∃ g ∈ config.approval_gates.getD [], ∃ pp,
        g.trigger.path_pattern = some pp
        ∧ (jsIncludes pp ".tf" = true ∨ jsIncludes pp "infrastructure/" = true))
    ∧ (config.approval_gates = none →
        WorkflowGenerator.checkTerraformUsage config = false)
    ∧ (config.operational = none →
        WorkflowGenerator.getProtectedBranches config = [])
    ∧ (config.roles = none →
        WorkflowGenerator.getContractorMembers config = [])
    ∧ (config.compliance = none →
        WorkflowGenerator.getComplianceControls config = [])
    ∧ (config.secrets = none →
        (WorkflowGenerator.workflowData config).secretPatterns = []) := by
  refine ⟨?_, ?_, ?_, ?_, ?_, ?_⟩
  · cases hga : config.approval_gates with
    | none => simp [WorkflowGenerator.checkTerraformUsage, hga]
    | some gates =>
      simp only [WorkflowGenerator.checkTerraformUsage, hga, Option.getD_some,
        List.any_eq_true]
      refine exists_congr fun g => and_congr_right fun _ => ?_
      cases hpp : g.trigger.path_pattern with
      | none => simp [hpp]
      | some pp => simp [hpp, Bool.or_eq_true]
  · intro h
    simp [WorkflowGenerator.checkTerraformUsage, h]
  · intro h
    simp [WorkflowGenerator.getProtectedBranches, h]
  · intro h
    simp [WorkflowGenerator.getContractorMembers, h]
  · intro h
    simp [WorkflowGenerator.getComplianceControls, h]
  · intro h
    simp [WorkflowGenerator.workflowData, h]

/-- C9 witness: a document with none of the optional sections — the
flag is false and every extraction yields its empty default. -/
theorem terraform_flag_and_totality_witness :
    WorkflowGenerator.checkTerraformUsage (minimalConfig "1.0" "demo") = false
    ∧ WorkflowGenerator.getProtectedBranches (minimalConfig "1.0" "demo") = []
    ∧ WorkflowGenerator.getContractorMembers (minimalConfig "1.0" "demo") = []
    ∧ WorkflowGenerator.getComplianceControls (minimalConfig "1.0" "demo") = []
    ∧ (WorkflowGenerator.workflowData (minimalConfig "1.0" "demo")).secretPatterns
        = [] := by
  obtain ⟨_, h2, h3, h4, h5, h6⟩ :=
    terraform_flag_and_totality (minimalConfig "1.0" "demo")
  exact ⟨h2 rfl, h3 rfl, h4 rfl, h5 rfl, h6 rfl⟩

/-! ## Report-formatting lemmas (C6, C7) -/

namespace GovernanceParser

/-- A substring of m is a substring of x ++ m. -/
theorem substring_extend_left {α : Type u} {l m : List α} (x : List α)
    (h : l <:+: m) : l <:+: x ++ m := by
  obtain ⟨s, t, hst⟩ := h
  exact ⟨x ++ s, t, by rw [← hst]; simp⟩

/-- A line of the joined report is a substring of the report text. -/
theorem mem_joinLines_substring (l : String) (lines : List String)
    (h : l ∈ lines) : l.data <:+: (joinLines lines).data := by
  induction lines with
  | nil => cases h
  | cons x xs ih =>
    rcases List.mem_cons.mp h with hx | hxs
    · subst hx
      cases xs with
      | nil => exact ⟨[], [], by simp [joinLines]⟩
      | cons y ys =>
        show l.data <:+: (l ++ "\n" ++ joinLines (y :: ys)).data
        rw [String.data_append, String.data_append, List.append_assoc]
        exact ⟨[], ("\n".data ++ (joinLines (y :: ys)).data), by simp⟩
    · cases xs with
      | nil => cases hxs
      | cons y ys =>
        show l.data <:+: (x ++ "\n" ++ joinLines (y :: ys)).data
        rw [String.data_append, String.data_append]
        rw [List.append_assoc]
        exact substring_extend_left _ (substring_extend_left _ (ih hxs))

/-- The annotated path-and-message line of an issue is among its
formatted lines. -/
theorem errLine_mem_errLines (e : ZodIssue) :
    ("  - " ++ String.intercalate "." e.path ++ ": " ++ e.message) ∈ errLines e := by
  unfold errLines
  by_cases h : (e.code == "invalid_enum_value") = true
  · rw [if_pos h]
    exact List.mem_cons_self _ _
  · rw [if_neg h]
    exact List.mem_cons_self _ _

/-- The allowed-values hint is among the formatted lines of an
invalid_enum_value issue. -/
theorem hint_mem_errLines (e : ZodIssue) (h : e.code = "invalid_enum_value") :
    ("    Allowed values: " ++ String.intercalate ", " e.options) ∈ errLines e := by
  unfold errLines
  rw [if_pos (by simp [h])]
  simp

/-- Every issue contributes at least one line. -/
theorem errLines_length_pos (e : ZodIssue) : 0 < (errLines e).length := by
  unfold errLines
  by_cases h : (e.code == "invalid_enum_value") = true
  · rw [if_pos h]; simp
  · rw [if_neg h]; simp

theorem length_le_flatMap_errLines (issues : List ZodIssue) :
    issues.length ≤ (issues.flatMap errLines).length := by
  induction issues with
  | nil => simp
  | cons e es ih =>
    rw [List.flatMap_cons, List.length_append, List.length_cons]
    have := errLines_length_pos e
    omega

end GovernanceParser

/-- C6: for every raw document that fails validation, the failure is
the aggregated report: a header line followed by the lines of every
collected issue — each issue contributes its own line carrying the
dot-joined field path and the message (so all N independent
violations are listed, not just the first), and the report has at
least one line per violation. -/
theorem validation_reports_all_violations (raw : Raw) (source : String)
    (issues : List ZodIssue)
    (hcol : GovernanceParser.collectIssues raw = issues)
    (hne : issues ≠ []) :
    GovernanceParser.parseGovernance raw source
        = .error (GovernanceParser.formatValidationError issues source)
    ∧ GovernanceParser.formatValidationError issues source
        = GovernanceParser.joinLines
            (("Validation errors in " ++ source ++ ":")
              :: issues.flatMap GovernanceParser.errLines)
    ∧ (∀ e ∈ issues,
        ("  - " ++ String.intercalate "." e.path ++ ": " ++ e.message)
          ∈ issues.flatMap GovernanceParser.errLines)
    ∧ issues.length ≤ (issues.flatMap GovernanceParser.errLines).length := by
  refine ⟨?_, rfl, ?_, GovernanceParser.length_le_flatMap_errLines issues⟩
  · unfold GovernanceParser.parseGovernance
    rw [hcol]
    cases issues with
    | nil => exact absurd rfl hne
    | cons e es => rfl
  · intro e he
    exact List.mem_flatMap.mpr ⟨e, he, GovernanceParser.errLine_mem_errLines e⟩

/-- C6 witness: a document missing both mandatory fields — both
violations are listed. -/
def missingIssues : List ZodIssue :=
  [{ code := "invalid_type", path := ["version"], message := "Required" },
   { code := "invalid_type", path := ["project"], message := "Required" }]

theorem validation_reports_all_violations_witness :
    GovernanceParser.parseGovernance (Raw.obj []) "governance.yaml"
        = .error "Validation errors in governance.yaml:\n  - version: Required\n  - project: Required"
    ∧ (∀ e ∈ missingIssues,
        ("  - " ++ String.intercalate "." e.path ++ ": " ++ e.message)
          ∈ missingIssues.flatMap GovernanceParser.errLines)
    ∧ missingIssues.length ≤ (missingIssues.flatMap GovernanceParser.errLines).length := by
  obtain ⟨h1, _, h3, h4⟩ := validation_reports_all_violations (Raw.obj [])
    "governance.yaml" missingIssues rfl (by simp [missingIssues])
  exact ⟨h1.trans rfl, h3, h4⟩

/-- The invalid_enum_value issue produced for an out-of-set action
type at gate index i. -/
def enumIssueAt (i : Nat) (t : String) : ZodIssue :=
  { code := "invalid_enum_value",
    path := ["approval_gates", toString i, "action", "type"],
    message := "Invalid enum value. Expected command | prompt | agent, received " ++ t,
    options := GovernanceParser.actionTypeValues }

/-- C7: a document whose approval-gate action has a type value outside
the closed set fails validation, and the failure message additionally
names the three allowed type values. -/
theorem enum_violation_reports_allowed_values
    (kvs gkvs akvs : List (String × Raw)) (gs : List Raw) (i : Nat)
    (t source : String)
    (hga : rawGet kvs "approval_gates" = some (.arr gs))
    (hg : gs[i]? = some (.obj gkvs))
    (ha : rawGet gkvs "action" = some (.obj akvs))
    (ht : rawGet akvs "type" = some (.str t))
    (hbad : (t == "command" || t == "prompt" || t == "agent") = false) :
    ∃ msg, GovernanceParser.parseGovernance (Raw.obj kvs) source = .error msg
      ∧ jsIncludes msg "Allowed values: command, prompt, agent" = true := by
  classical
  have hA : enumIssueAt i t
      ∈ GovernanceParser.checkActionType akvs ["approval_gates", toString i, "action"] := by
    unfold GovernanceParser.checkActionType
    rw [ht]
    dsimp only
    rw [hbad]
    simp [enumIssueAt]
  have hB : enumIssueAt i t
      ∈ GovernanceParser.checkApprovalGate ["approval_gates", toString i]
          (Raw.obj gkvs) := by
    unfold GovernanceParser.checkApprovalGate
    dsimp only
    rw [ha]
    refine List.mem_append_right _ ?_
    exact List.mem_append_left _ (List.mem_append_left _ (List.mem_append_left _ hA))
  have hC : enumIssueAt i t
      ∈ gs.enum.flatMap (fun iv =>
          GovernanceParser.checkApprovalGate ["approval_gates", toString iv.1] iv.2) :=
    List.mem_flatMap.mpr ⟨(i, Raw.obj gkvs), List.mem_enum_iff_getElem?.mpr hg, hB⟩
  have hD : enumIssueAt i t ∈ GovernanceParser.collectIssues (Raw.obj kvs) := by
    unfold GovernanceParser.collectIssues
    dsimp only
    rw [hga]
    exact List.mem_append_right _ hC
  cases hcol : GovernanceParser.collectIssues (Raw.obj kvs) with
  | nil => rw [hcol] at hD; cases hD
  | cons e0 es =>
    rw [hcol] at hD
    refine ⟨GovernanceParser.formatValidationError (e0 :: es) source, ?_, ?_⟩
    · unfold GovernanceParser.parseGovernance
      rw [hcol]
    · have hhint : ("    Allowed values: "
          ++ String.intercalate ", " GovernanceParser.actionTypeValues)
          ∈ GovernanceParser.errLines (enumIssueAt i t) :=
        GovernanceParser.hint_mem_errLines _ rfl
      have hline : ("    Allowed values: "
          ++ String.intercalate ", " GovernanceParser.actionTypeValues)
          ∈ (("Validation errors in " ++ source ++ ":")
              :: (e0 :: es).flatMap GovernanceParser.errLines) :=
        List.mem_cons_of_mem _ (List.mem_flatMap.mpr ⟨_, hD, hhint⟩)
      have hinf := GovernanceParser.mem_joinLines_substring _ _ hline
      have htarget : ("Allowed values: command, prompt, agent").data
          <:+: ("    Allowed values: "
            ++ String.intercalate ", " GovernanceParser.actionTypeValues).data := by
        decide
      exact decide_eq_true (htarget.trans hinf)

/-- C7 witness: a gate whose action type is deploy — an invalid value;
the failure message names the three allowed values. -/
def badTypeRaw : Raw :=
  Raw.obj [("version", .str "1.0"), ("project", .str "demo"),
    ("approval_gates", .arr [Raw.obj [("name", .str "g"), ("trigger", Raw.obj []),
      ("action", Raw.obj [("type", .str "deploy")])]])]

theorem enum_violation_reports_allowed_values_witness :
    ∃ msg, GovernanceParser.parseGovernance badTypeRaw "governance.yaml" = .error msg
      ∧ jsIncludes msg "Allowed values: command, prompt, agent" = true :=
  enum_violation_reports_allowed_values _ _ _ _ 0 "deploy" "governance.yaml"
    rfl rfl rfl rfl rfl
